import Mathlib

/-!
# Verification of the tg-app-template frontend core

Shallow embedding of the client-side authentication context resolver
(`front/telegram.js`, plus the dev-bypass wrapper described by the
configuration surface), the view composer (`App.navigateToPage` in
`front/app.js`), the network client (`App.apiRequest`), and the debug
logger, together with proofs of the specified properties.

Conventions of the embedding:
* JS objects used as header dictionaries are association lists
  (`List (String × String)`); object-spread `\x7b...a, ...b\x7d` is
  `objSpread`, which overwrites values of existing keys in place and
  appends fresh keys, exactly as JS object construction does.
* `null`/missing values become `Option`; JS string truthiness
  (`null` and the empty string are falsy) is made explicit at each use.
* DOM side effects are explicit state: the `#app` container's innerHTML
  plus the list of `<head>` children that carry an `id`.
* Host-runtime calls (alert, haptics, buttons) become effect values.
-/

namespace TgApp

/-- A JS object holding string-valued fields, in insertion order
(used for request-header dictionaries). -/
abbrev Headers := List (String × String)

/-- First-match lookup, the way reading a property off a JS object
with these keys behaves (keys are unique in an actual JS object;
for lists with duplicate keys this returns the first binding). -/
def lookupHeader : Headers → String → Option String
  | [], _ => none
  | p :: rest, k => if k == p.1 then some p.2 else lookupHeader rest k

/-- Whether the object has the given key. -/
def containsKey (h : Headers) (k : String) : Bool :=
  h.any (fun p => p.1 == k)

/-- The `window.Telegram.WebApp` host object, as far as the wrapper in
`front/telegram.js` reads it: `initData`, `version`, `platform`,
`colorScheme`, viewport fields and `isExpanded`. -/
structure WebAppObj where
  initData : String
  version : String
  platform : String
  colorScheme : String
  viewportHeight : Nat
  viewportStableHeight : Nat
  isExpanded : Bool
  deriving DecidableEq, Repr

/-- State of the `TelegramWebApp` wrapper object from `front/telegram.js`.
The constructor always runs `init()`, which either captures the host
object and all derived fields (`webApp`, `initData`, `isInitialized =
true`) or leaves every field at its `null`/`false` initial value, so
exactly these two shapes are reachable. -/
inductive TelegramWebAppState
  /-- Browser mode: `window.Telegram.WebApp` was absent, every field
  keeps its constructor default (`webApp = null`, `initData = null`,
  `isInitialized = false`). -/
  | browser
  /-- Host mode: `init()` saw `window.Telegram.WebApp` and snapshotted
  it (`webApp = w`, `initData = w.initData`, `isInitialized = true`). -/
  | host (w : WebAppObj)
  deriving DecidableEq, Repr

namespace TelegramWebApp

/-- `TelegramWebApp.init` (telegram.js:14-38): if `window.Telegram &&
window.Telegram.WebApp` then snapshot it, else stay in browser mode.
The argument is the value of `window.Telegram.WebApp` at construction
time (`none` = absent). -/
def init : Option WebAppObj → TelegramWebAppState
  | some w => .host w
  | none => .browser

/-- The `isInitialized` field after `init`. -/
def isInitialized : TelegramWebAppState → Bool
  | .browser => false
  | .host _ => true

/-- The `initData` field after `init`: `null` in browser mode, the
snapshot of `webApp.initData` in host mode. -/
def initDataField : TelegramWebAppState → Option String
  | .browser => none
  | .host w => some w.initData

/-- `getAuthHeaders` (telegram.js:58-68): always `Content-Type:
application/json`; adds `X-Telegram-Init-Data` when `this.initData`
is truthy (non-null and non-empty). -/
def getAuthHeaders : TelegramWebAppState → Headers
  | .browser => [("Content-Type", "application/json")]
  | .host w =>
    if w.initData == "" then
      [("Content-Type", "application/json")]
    else
      [("Content-Type", "application/json"), ("X-Telegram-Init-Data", w.initData)]

end TelegramWebApp

/-- Whether the current environment offers a non-empty init-data string
(the availability signal the spec's freshness property speaks about).
The argument is the current value of `window.Telegram.WebApp`. -/
def initDataAvailable : Option WebAppObj → Bool
  | none => false
  | some w => !(w.initData == "")

/-- The headers produced by a *second* `getAuthHeaders()` call, given the
environment at construction time and the (possibly different) current
environment.  In telegram.js the only write to `this.initData` is in
`init()`, which runs once from the constructor; `getAuthHeaders` reads
only `this.initData`, so the result depends on the construction-time
snapshot alone and the current environment is ignored. -/
def secondResolveHeaders (construction : Option WebAppObj)
    (_current : Option WebAppObj) : Headers :=
  TelegramWebApp.getAuthHeaders (TelegramWebApp.init construction)

/-- The auth mode of a resolution (spec §3 `AuthContext.mode`). -/
inductive AuthMode
  | host
  | devBypass
  | anonymous
  deriving DecidableEq, Repr

/-- An `AuthContext`: the selected mode together with the produced
header set (spec §3). -/
structure AuthContext where
  mode : AuthMode
  headers : Headers
  deriving DecidableEq, Repr

/-- The recognized local-development options consumed by the resolver
(`config.js` `LOCAL_DEV.app`: `enableDevMode`, `devAuthHeader =
"dev-user-bypass"`). -/
structure AppCfg where
  enableDevMode : Bool
  devAuthHeader : String
  deriving DecidableEq, Repr

/-- Modelled from the spec: the full three-mode auth resolution of the
`window.tgApp` wrapper.  `front/app.js` calls `window.tgApp.getAuthHeaders()`
and `front/config.js` declares `enableDevMode` / `devAuthHeader:
"dev-user-bypass"`, but the wrapper file defining the dev-bypass branch
is not under `src/`; spec §4.1 fixes its behavior: host mode when the
host runtime exposes a non-empty init-data string (identity header
`X-Telegram-Init-Data`, matching telegram.js), else dev-bypass when the
configuration enables it and the host runtime is absent (fixed token
under `X-Dev-Auth`, per §6 and DEV_MODE.md), else anonymous with only
the content-type header. -/
def resolve (tg : Option WebAppObj) (cfg : AppCfg) : AuthContext :=
  match tg with
  | some w =>
    if w.initData == "" then
      { mode := .anonymous, headers := [("Content-Type", "application/json")] }
    else
      { mode := .host
        headers := [("Content-Type", "application/json"),
                    ("X-Telegram-Init-Data", w.initData)] }
  | none =>
    if cfg.enableDevMode then
      { mode := .devBypass
        headers := [("Content-Type", "application/json"),
                    ("X-Dev-Auth", cfg.devAuthHeader)] }
    else
      { mode := .anonymous, headers := [("Content-Type", "application/json")] }

/-- Kind of an injected head element: a `<link rel="stylesheet">` or a
`<script>`. -/
inductive ElemKind
  | styleLink
  | scriptTag
  deriving DecidableEq, Repr

/-- A `<head>` child carrying an element id, as created by
`App.navigateToPage` (`cssLink.id = 'page-css'`, `script.id = 'page-js'`). -/
structure HeadElem where
  kind : ElemKind
  eid : String
  src : String
  deriving DecidableEq, Repr

/-- The parts of the document the view composer mutates: the `#app`
container's innerHTML and the id-carrying children of `<head>`. -/
structure Dom where
  appContent : String
  head : List HeadElem
  deriving DecidableEq, Repr

/-- The `App` object's view state plus the document, with a log of the
URLs passed to `fetch()` (to state "zero network calls" claims). -/
structure AppState where
  currentPage : Option String
  dom : Dom
  fetchLog : List String
  deriving DecidableEq, Repr

/-- The environment a navigation runs against: `AppConfig.pages.paths`
(the view registry), the outcome of `fetch` on a markup URL (`none` =
non-ok response or rejected fetch; both throw into the same `catch`),
and the browser's `DOMParser`-based body extraction
(`doc.body.innerHTML` of the parsed document). -/
structure NavIo where
  registry : String → Option String
  fetchHtml : String → Option String
  extractBody : String → String

/-- The error markup `App.showError` (app.js:592-603) writes into the
`#app` container. -/
def errorContainerHtml (message : String) : String :=
  "<div class=\"error-container\"><h2>Error</h2><p>" ++ message ++
    "</p><button onclick=\"location.reload()\" class=\"primary-btn\">Retry</button></div>"

/-- `App.showError(message)`: replaces the `#app` container's innerHTML
with the error panel. -/
def showError (st : AppState) (message : String) : AppState :=
  { st with dom := { st.dom with appContent := errorContainerHtml message } }

/-- `document.getElementById(eid).remove()`: `getElementById` returns the
first element with the id (document order), `remove` deletes it; when no
element matches, nothing happens (the code guards with `if (existing)`). -/
def removeFirstById (eid : String) : List HeadElem → List HeadElem
  | [] => []
  | e :: es => if e.eid == eid then es else e :: removeFirstById eid es

/-- How a navigation attempt ended: committed, registry lookup threw
`Page '<name>' not found`, or the markup fetch failed (`Failed to load
page HTML`). All throws land in the surrounding `catch`. -/
inductive NavOutcome
  | ok
  | pageNotFound
  | loadMarkupFailed
  deriving DecidableEq, Repr

/-- The part of `App.navigateToPage` that runs once the markup fetch has
settled (app.js:526-574): on failure, the `catch` block calls
`showError`; on success, extract the body content, replace `#app`'s
innerHTML, remove-then-append the `page-css` link, remove-then-append
the `page-js` script, and set `currentPage`. -/
def navResume (io : NavIo) (pageName pageConfig : String)
    (res : Option String) (st : AppState) : AppState × NavOutcome :=
  match res with
  | none => (showError st ("Failed to load page: " ++ pageName), .loadMarkupFailed)
  | some htmlContent =>
    let pageContent := io.extractBody htmlContent
    let dom1 := { st.dom with appContent := pageContent }
    let head1 := removeFirstById "page-css" dom1.head ++
      [{ kind := .styleLink, eid := "page-css", src := pageConfig ++ "style.css" }]
    let head2 := removeFirstById "page-js" head1 ++
      [{ kind := .scriptTag, eid := "page-js", src := pageConfig ++ "app.js" }]
    ({ st with
        dom := { dom1 with head := head2 }
        currentPage := some pageName },
      .ok)

/-- `App.navigateToPage(pageName)` (app.js:509-581) run to completion:
look the page up in `AppConfig.pages.paths` (a miss throws before any
`fetch`, and the `catch` calls `showError`), otherwise fetch
`<basePath>index.html` and continue with `navResume`. -/
def navigateToPage (io : NavIo) (pageName : String) (st : AppState) :
    AppState × NavOutcome :=
  match io.registry pageName with
  | none => (showError st ("Failed to load page: " ++ pageName), .pageNotFound)
  | some pageConfig =>
    let htmlPath := pageConfig ++ "index.html"
    let st1 := { st with fetchLog := st.fetchLog ++ [htmlPath] }
    navResume io pageName pageConfig (io.fetchHtml htmlPath) st1

/-- A sequence of sequentially completed `navigateToPage` calls. -/
def navSeq (io : NavIo) (names : List String) (st : AppState) : AppState :=
  names.foldl (fun s n => (navigateToPage io n s).1) st

/-- Number of head elements carrying the given id. -/
def countById (eid : String) (l : List HeadElem) : Nat :=
  (l.filter (fun e => e.eid == eid)).length

/-- JS assignment of one key into an object under construction: if the
key already exists its value is overwritten in place (position kept),
otherwise the binding is appended. -/
def objInsert (h : Headers) (kv : String × String) : Headers :=
  if containsKey h kv.1 then
    h.map (fun p => if p.1 == kv.1 then (p.1, kv.2) else p)
  else
    h ++ [kv]

/-- JS object spread `\x7b ...a, ...b \x7d`: start from `a`'s bindings and
assign `b`'s bindings left to right. -/
def objSpread (a b : Headers) : Headers := b.foldl objInsert a

/-- The header dictionary `App.apiRequest` (app.js:767-780) sends:
`\x7b ...defaultHeaders, ...options.headers \x7d`, the resolver's headers
spread first and the caller-supplied extras spread second. -/
def apiRequestHeaders (defaultHeaders extraHeaders : Headers) : Headers :=
  objSpread defaultHeaders extraHeaders

/-- An HTTP response as `App.apiRequest` reads it: `status`,
`statusText` and the raw body text handed to `response.json()`. -/
structure HttpResponse where
  status : Nat
  statusText : String
  body : String
  deriving DecidableEq, Repr

/-- `response.ok` per the Fetch standard: status in the range 200-299. -/
def responseOk (status : Nat) : Bool :=
  200 ≤ status && status ≤ 299

/-- Errors a data call can surface: the thrown
`API request failed: <status>: <statusText>` for a non-success
response, or a rejection from `response.json()` on an unparsable body. -/
inductive ApiError
  | requestFailed (status : Nat) (statusText : String)
  | parseFailed
  deriving DecidableEq, Repr

/-- Response handling of `App.apiRequest` (app.js:781-788): throw when
`!response.ok && response.status !== 201` (201 is explicitly allowed),
carrying status and statusText; otherwise parse the body as JSON
(`response.json()`), whose failure rejects the call.  `parse` stands
for the JSON parser, `α` for the parsed-document type. -/
def apiRequestHandle {α : Type} (parse : String → Option α)
    (r : HttpResponse) : Except ApiError α :=
  if !responseOk r.status && r.status != 201 then
    .error (.requestFailed r.status r.statusText)
  else
    match parse r.body with
    | some j => .ok j
    | none => .error .parseFailed

/-- A debug log entry of the `App` class: `\x7b time, message, data \x7d`. -/
structure LogEntry where
  time : String
  message : String
  data : Option String
  deriving DecidableEq, Repr

/-- Result of one `App.debugLog` call: the new `debugLogs` array, the
lines written to the console, and whether `updateDebugDisplay` ran. -/
structure DebugLogResult where
  debugLogs : List LogEntry
  consoleLines : List String
  displayUpdated : Bool
  deriving DecidableEq, Repr

/-- `App.debugLog(message, data)` (app.js:711-727): bail out before any
effect when `AppConfig.app.debugConsole` is false; otherwise push the
entry, log to the console, and refresh the debug display. -/
def App.debugLog (debugConsole : Bool) (time message : String)
    (data : Option String) (logs : List LogEntry) : DebugLogResult :=
  if !debugConsole then
    { debugLogs := logs, consoleLines := [], displayUpdated := false }
  else
    let line := match data with
      | some d => "[" ++ time ++ "] " ++ message ++ " " ++ d
      | none => "[" ++ time ++ "] " ++ message
    { debugLogs := logs ++ [{ time := time, message := message, data := data }]
      consoleLines := [line]
      displayUpdated := true }

/-- `ArenaApp.debugLog(message)` (app.js:44-52): bail out before any
effect when `window.CONFIG.APP_CONFIG.ENABLE_DEBUG` is false; otherwise
push `[<timestamp>] <message>`, log it, and refresh the display. -/
def ArenaApp.debugLog (enableDebug : Bool) (timestamp message : String)
    (logs : List String) : List String × List String × Bool :=
  if !enableDebug then
    (logs, [], false)
  else
    let entry := "[" ++ timestamp ++ "] " ++ message
    (logs ++ [entry], [entry], true)

/-- A dialog shown by the popup methods: either a browser fallback
(`alert`/`confirm`) or a call into the host runtime. -/
inductive DialogEffect
  | browserAlert (message : String)
  | browserConfirm (message : String)
  | hostAlert (message : String)
  | hostConfirm (message : String)
  | hostPopup (message : Option String)
  deriving DecidableEq, Repr

/-- A command issued to the host runtime by the remaining wrapper
methods (all of which return without doing anything in browser mode). -/
inductive HostCommand
  | close
  | expand
  | mainButtonShow (text : String)
  | mainButtonHide
  | backButtonShow
  | backButtonHide
  | hapticNotification (kind : String)
  | hapticImpact (kind : String)
  | themeApplied
  deriving DecidableEq, Repr

namespace TelegramWebApp

/-- `getInitData` (telegram.js:75-77) returns `this.initData` (`null`
in browser mode, the construction-time snapshot in host mode). -/
def getInitData : TelegramWebAppState → Option String
  | .browser => none
  | .host w => some w.initData

/-- `isReady` returns `this.isInitialized`. -/
def isReady (st : TelegramWebAppState) : Bool := isInitialized st

/-- `getVersion` (telegram.js:179-181): `isInitialized ? webApp.version : null`. -/
def getVersion : TelegramWebAppState → Option String
  | .browser => none
  | .host w => some w.version

/-- `getPlatform` (telegram.js:183-185): `isInitialized ? webApp.platform : 'unknown'`. -/
def getPlatform : TelegramWebAppState → String
  | .browser => "unknown"
  | .host w => w.platform

/-- `getColorScheme` (telegram.js:187-189): `isInitialized ? webApp.colorScheme : 'light'`. -/
def getColorScheme : TelegramWebAppState → String
  | .browser => "light"
  | .host w => w.colorScheme

/-- `getViewportHeight` (telegram.js:192-194): `isInitialized ?
webApp.viewportHeight : window.innerHeight`. -/
def getViewportHeight (st : TelegramWebAppState) (innerHeight : Nat) : Nat :=
  match st with
  | .browser => innerHeight
  | .host w => w.viewportHeight

/-- `getViewportStableHeight` (telegram.js:196-198). -/
def getViewportStableHeight (st : TelegramWebAppState) (innerHeight : Nat) : Nat :=
  match st with
  | .browser => innerHeight
  | .host w => w.viewportStableHeight

/-- `isExpanded` (telegram.js:200-202): `isInitialized ? webApp.isExpanded : false`. -/
def isExpanded : TelegramWebAppState → Bool
  | .browser => false
  | .host w => w.isExpanded

/-- `showAlert` (telegram.js:137-144): browser `alert` fallback when not
initialized, else `webApp.showAlert`. -/
def showAlert (st : TelegramWebAppState) (message : String) : DialogEffect :=
  match st with
  | .browser => .browserAlert message
  | .host _ => .hostAlert message

/-- `showConfirm` (telegram.js:146-154): browser `confirm` fallback when
not initialized (the callback is invoked with its result), else
`webApp.showConfirm`. -/
def showConfirm (st : TelegramWebAppState) (message : String) : DialogEffect :=
  match st with
  | .browser => .browserConfirm message
  | .host _ => .hostConfirm message

/-- `showPopup` (telegram.js:156-163): in browser mode,
`alert(params.message || 'Popup not supported in browser mode')`; the
argument is the `message` field of `params` (`none`/empty = falsy). -/
def showPopup (st : TelegramWebAppState) (paramsMessage : Option String) :
    DialogEffect :=
  match st with
  | .browser =>
    .browserAlert
      (match paramsMessage with
        | some m => if m == "" then "Popup not supported in browser mode" else m
        | none => "Popup not supported in browser mode")
  | .host _ => .hostPopup paramsMessage

/-- `close` (telegram.js:166-170): forwards to the host only when
initialized. -/
def close : TelegramWebAppState → List HostCommand
  | .browser => []
  | .host _ => [.close]

/-- `expand` (telegram.js:172-176). -/
def expand : TelegramWebAppState → List HostCommand
  | .browser => []
  | .host _ => [.expand]

/-- `showMainButton` (telegram.js:108-114): returns immediately when not
initialized. -/
def showMainButton (st : TelegramWebAppState) (text : String) : List HostCommand :=
  match st with
  | .browser => []
  | .host _ => [.mainButtonShow text]

/-- `hideMainButton` (telegram.js:116-120). -/
def hideMainButton : TelegramWebAppState → List HostCommand
  | .browser => []
  | .host _ => [.mainButtonHide]

/-- `showBackButton` (telegram.js:123-128). -/
def showBackButton : TelegramWebAppState → List HostCommand
  | .browser => []
  | .host _ => [.backButtonShow]

/-- `hideBackButton` (telegram.js:130-134). -/
def hideBackButton : TelegramWebAppState → List HostCommand
  | .browser => []
  | .host _ => [.backButtonHide]

/-- `hapticFeedback(type)` (telegram.js:84-105): returns immediately when
not initialized or haptics are disabled in config; otherwise dispatches
on the type: success/error/warning notify, light/medium/heavy impact,
anything else a light impact. -/
def hapticFeedback (st : TelegramWebAppState) (cfgEnabled : Bool)
    (kind : String) : List HostCommand :=
  match st with
  | .browser => []
  | .host _ =>
    if !cfgEnabled then []
    else if kind == "success" || kind == "error" || kind == "warning" then
      [.hapticNotification kind]
    else if kind == "light" || kind == "medium" || kind == "heavy" then
      [.hapticImpact kind]
    else
      [.hapticImpact "light"]

/-- `setupTheme` (telegram.js:41-55): returns immediately when not
initialized or theme params are disabled; the CSS-property writes it
performs in host mode are abstracted to a single marker command. -/
def setupTheme (st : TelegramWebAppState) (cfgEnabled : Bool) : List HostCommand :=
  match st with
  | .browser => []
  | .host _ => if !cfgEnabled then [] else [.themeApplied]

end TelegramWebApp

/-! ## Concrete fixtures (used to instantiate theorems with hypotheses) -/

/-- A registry knowing only the `main` page, as a populated
`AppConfig.pages.paths` would. -/
def mainRegistry : String → Option String :=
  fun n => if n == "main" then some "pages/main/" else none

/-- A registry knowing the pages `a` and `b` (race scenario). -/
def raceRegistry : String → Option String :=
  fun n =>
    if n == "a" then some "pages/a/"
    else if n == "b" then some "pages/b/"
    else none

/-- A fetch oracle whose every request succeeds with a fixed document. -/
def okFetch : String → Option String :=
  fun _ => some "<html><body><h1>Main</h1></body></html>"

/-- A fetch oracle whose every request fails (non-ok status or network
rejection). -/
def failFetch : String → Option String := fun _ => none

/-- A body extractor for fixtures (the identity on the fetched text). -/
def idExtract : String → String := fun s => s

/-- Environment: `main` registered, fetches succeed. -/
def demoIo : NavIo :=
  { registry := mainRegistry, fetchHtml := okFetch, extractBody := idExtract }

/-- Environment: `main` registered, fetches fail. -/
def demoFailIo : NavIo :=
  { registry := mainRegistry, fetchHtml := failFetch, extractBody := idExtract }

/-- Environment: `a` and `b` registered, fetches succeed. -/
def raceIo : NavIo :=
  { registry := raceRegistry, fetchHtml := okFetch, extractBody := idExtract }

/-- The shell state before any navigation: welcome content, no injected
resources, no fetches. -/
def emptyApp : AppState :=
  { currentPage := none
    dom := { appContent := "welcome-shell", head := [] }
    fetchLog := [] }

/-- A concrete host object (non-empty init data). -/
def demoWebApp : WebAppObj :=
  { initData := "query_id=abc"
    version := "7.0"
    platform := "ios"
    colorScheme := "dark"
    viewportHeight := 500
    viewportStableHeight := 480
    isExpanded := true }

/-- The `LOCAL_DEV.app` configuration of `config.js`: dev mode on,
bypass token `dev-user-bypass`. -/
def localDevCfg : AppCfg :=
  { enableDevMode := true, devAuthHeader := "dev-user-bypass" }

/-- The `PRODUCTION.app` configuration of `config.js`: dev mode off. -/
def productionCfg : AppCfg :=
  { enableDevMode := false, devAuthHeader := "dev-user-bypass" }

/-- A toy JSON parser for fixtures: accepts exactly the document `"7"`. -/
def natParse : String → Option Nat :=
  fun s => if s == "7" then some 7 else none

/-! ## Helper lemmas -/

theorem countById_append (eid : String) (l₁ l₂ : List HeadElem) :
    countById eid (l₁ ++ l₂) = countById eid l₁ + countById eid l₂ := by
  simp [countById, List.filter_append]

theorem countById_removeFirst_self (eid : String) (l : List HeadElem)
    (h : countById eid l ≤ 1) : countById eid (removeFirstById eid l) = 0 := by
  induction l with
  | nil => rfl
  | cons e es ih =>
    by_cases he : e.eid = eid
    · have hb : (e.eid == eid) = true := by simp [he]
      have hcount : countById eid (e :: es) = countById eid es + 1 := by
        simp [countById, List.filter_cons, hb]
      rw [hcount] at h
      have hes : countById eid es = 0 := by omega
      have hr : removeFirstById eid (e :: es) = es := by
        simp [removeFirstById, hb]
      rw [hr]; exact hes
    · have hb : (e.eid == eid) = false := by simp [he]
      have hcount : countById eid (e :: es) = countById eid es := by
        simp [countById, List.filter_cons, hb]
      rw [hcount] at h
      have hr : removeFirstById eid (e :: es) = e :: removeFirstById eid es := by
        simp [removeFirstById, hb]
      rw [hr]
      have hstep : countById eid (e :: removeFirstById eid es) =
          countById eid (removeFirstById eid es) := by
        simp [countById, List.filter_cons, hb]
      rw [hstep]; exact ih h

theorem removeFirstById_sublist (eid : String) (l : List HeadElem) :
    (removeFirstById eid l).Sublist l := by
  induction l with
  | nil => exact List.Sublist.refl []
  | cons e es ih =>
    by_cases hb : (e.eid == eid) = true
    · have hr : removeFirstById eid (e :: es) = es := by
        simp [removeFirstById, hb]
      rw [hr]; exact (List.Sublist.refl es).cons e
    · have hr : removeFirstById eid (e :: es) = e :: removeFirstById eid es := by
        simp [removeFirstById, hb]
      rw [hr]; exact ih.cons₂ e

theorem countById_removeFirst_le (eid eid' : String) (l : List HeadElem) :
    countById eid (removeFirstById eid' l) ≤ countById eid l :=
  List.Sublist.length_le
    (List.Sublist.filter _ (removeFirstById_sublist eid' l))

theorem countById_swap_self (eid : String) (l : List HeadElem) (x : HeadElem)
    (hx : (x.eid == eid) = true) (h : countById eid l ≤ 1) :
    countById eid (removeFirstById eid l ++ [x]) = 1 := by
  rw [countById_append, countById_removeFirst_self eid l h]
  simp [countById, List.filter_cons, hx]

theorem countById_swap_other (eid eid' : String) (l : List HeadElem)
    (x : HeadElem) (hx : (x.eid == eid) = false) :
    countById eid (removeFirstById eid' l ++ [x]) ≤ countById eid l := by
  rw [countById_append]
  have h1 := countById_removeFirst_le eid eid' l
  have h2 : countById eid [x] = 0 := by simp [countById, List.filter_cons, hx]
  omega

/-- The committed resource swap of a navigation (remove-then-append the
`page-css` link, then remove-then-append the `page-js` script)
preserves the at-most-one invariant for both reserved ids. -/
theorem swapPair_counts (head : List HeadElem) (s1 s2 : String)
    (hcss : countById "page-css" head ≤ 1)
    (hjs : countById "page-js" head ≤ 1) :
    countById "page-css"
        (removeFirstById "page-js"
          (removeFirstById "page-css" head ++
            [{ kind := .styleLink, eid := "page-css", src := s1 }]) ++
          [{ kind := .scriptTag, eid := "page-js", src := s2 }]) ≤ 1 ∧
      countById "page-js"
        (removeFirstById "page-js"
          (removeFirstById "page-css" head ++
            [{ kind := .styleLink, eid := "page-css", src := s1 }]) ++
          [{ kind := .scriptTag, eid := "page-js", src := s2 }]) ≤ 1 := by
  have hcss1 : countById "page-css"
      (removeFirstById "page-css" head ++
        [{ kind := .styleLink, eid := "page-css", src := s1 }]) = 1 :=
    countById_swap_self _ _ _ rfl hcss
  have hjs1 : countById "page-js"
      (removeFirstById "page-css" head ++
        [{ kind := .styleLink, eid := "page-css", src := s1 }]) ≤ 1 :=
    le_trans (countById_swap_other _ _ _ _ rfl) hjs
  constructor
  · exact le_trans (countById_swap_other _ _ _ _ rfl) (le_of_eq hcss1)
  · exact le_of_eq (countById_swap_self _ _ _ rfl hjs1)

/-- One completed `navigateToPage` call preserves the at-most-one
invariant for both reserved element ids, whatever its outcome. -/
theorem navigateToPage_preserves_resourceInvariant (io : NavIo)
    (pageName : String) (st : AppState)
    (hcss : countById "page-css" st.dom.head ≤ 1)
    (hjs : countById "page-js" st.dom.head ≤ 1) :
    countById "page-css" (navigateToPage io pageName st).1.dom.head ≤ 1 ∧
      countById "page-js" (navigateToPage io pageName st).1.dom.head ≤ 1 := by
  unfold navigateToPage navResume
  cases hreg : io.registry pageName with
  | none =>
    simp only [hreg, showError]
    exact ⟨hcss, hjs⟩
  | some pageConfig =>
    simp only [hreg]
    cases hf : io.fetchHtml (pageConfig ++ "index.html") with
    | none =>
      simp only [hf, showError]
      exact ⟨hcss, hjs⟩
    | some htmlContent =>
      simp only [hf]
      simpa using swapPair_counts st.dom.head
        (pageConfig ++ "style.css") (pageConfig ++ "app.js") hcss hjs

theorem lookupHeader_append (h₁ h₂ : Headers) (k : String) :
    lookupHeader (h₁ ++ h₂) k =
      (match lookupHeader h₁ k with
        | some v => some v
        | none => lookupHeader h₂ k) := by
  induction h₁ with
  | nil => rfl
  | cons p rest ih =>
    by_cases hk : (k == p.1) = true <;> simp [lookupHeader, hk, ih]

theorem lookupHeader_eq_none_of_not_mem (h : Headers) (k : String)
    (hm : k ∉ h.map Prod.fst) : lookupHeader h k = none := by
  induction h with
  | nil => rfl
  | cons p rest ih =>
    simp only [List.map_cons, List.mem_cons] at hm
    push_neg at hm
    have hb : (k == p.1) = false := by simp [hm.1]
    simp [lookupHeader, hb, ih hm.2]

theorem lookupHeader_eq_none_of_not_containsKey (h : Headers) (k : String)
    (hc : containsKey h k = false) : lookupHeader h k = none := by
  induction h with
  | nil => rfl
  | cons p rest ih =>
    simp only [containsKey, List.any_cons, Bool.or_eq_false_iff] at hc
    have hne : ¬ p.1 = k := by simpa using hc.1
    have hb : (k == p.1) = false := by
      simp only [beq_eq_false_iff_ne, ne_eq]
      exact fun hkk => hne hkk.symm
    have hrest : lookupHeader rest k = none := ih (by simpa [containsKey] using hc.2)
    simp [lookupHeader, hb, hrest]

theorem lookupHeader_cons (p : String × String) (rest : Headers) (k : String) :
    lookupHeader (p :: rest) k =
      if k == p.1 then some p.2 else lookupHeader rest k := rfl

theorem lookupHeader_mapReplace (h : Headers) (k' v k : String) :
    lookupHeader (h.map fun p => if p.1 == k' then (p.1, v) else p) k =
      if (k == k') && containsKey h k' then some v else lookupHeader h k := by
  induction h with
  | nil => simp [lookupHeader, containsKey]
  | cons p rest ih =>
    rw [List.map_cons]
    by_cases hp : (p.1 == k') = true
    · rw [if_pos hp]
      have hp' : p.1 = k' := by simpa using hp
      by_cases hk : (k == p.1) = true
      · have hkk' : (k == k') = true := by
          have h1 : k = p.1 := by simpa using hk
          simp [h1, hp']
        simp [lookupHeader_cons, containsKey, List.any_cons, hk, hkk', hp]
      · have hkb : (k == p.1) = false := by simpa using hk
        have hkk' : (k == k') = false := by
          simp only [beq_eq_false_iff_ne, ne_eq] at hkb ⊢
          exact fun hh => hkb (hh.trans hp'.symm)
        rw [lookupHeader_cons, if_neg hk, ih, hkk']
        simp [lookupHeader_cons, hkb]
    · rw [if_neg hp]
      have hpb : (p.1 == k') = false := by simpa using hp
      by_cases hk : (k == p.1) = true
      · have hk' : k = p.1 := by simpa using hk
        have hkk' : (k == k') = false := by
          simp only [beq_eq_false_iff_ne, ne_eq] at hpb ⊢
          exact fun hh => hpb (hk'.symm.trans hh)
        simp [lookupHeader_cons, hk, hkk']
      · have hkb : (k == p.1) = false := by simpa using hk
        rw [lookupHeader_cons, if_neg hk, ih]
        show _ = ite ((k == k' && (p.1 == k' || rest.any fun q => q.1 == k')) = true) _ _
        rw [hpb, Bool.false_or, lookupHeader_cons p rest k, if_neg hk]
        rfl

theorem lookupHeader_objInsert (h : Headers) (k' v k : String) :
    lookupHeader (objInsert h (k', v)) k =
      if k == k' then some v else lookupHeader h k := by
  unfold objInsert
  by_cases hc : containsKey h k' = true
  · rw [if_pos hc, lookupHeader_mapReplace, hc]
    by_cases hk : (k == k') = true <;> simp [hk]
  · have hc' : containsKey h k' = false := by simpa using hc
    rw [if_neg (by simp [hc']), lookupHeader_append]
    by_cases hk : (k == k') = true
    · have hkeq : k = k' := by simpa using hk
      have hnone : lookupHeader h k = none :=
        lookupHeader_eq_none_of_not_containsKey h k (hkeq ▸ hc')
      simp [lookupHeader, hk, hnone]
    · have hkb : (k == k') = false := by simpa using hk
      cases hl : lookupHeader h k <;> simp [lookupHeader, hkb, hl]

theorem containsKey_mapReplace (h : Headers) (k' v k : String) :
    containsKey (h.map fun p => if p.1 == k' then (p.1, v) else p) k =
      containsKey h k := by
  induction h with
  | nil => rfl
  | cons p rest ih =>
    rw [List.map_cons]
    simp only [containsKey, List.any_cons] at ih ⊢
    by_cases hp : (p.1 == k') = true
    · rw [if_pos hp, ih]
    · rw [if_neg hp, ih]

theorem containsKey_objInsert (h : Headers) (k' v k : String) :
    containsKey (objInsert h (k', v)) k =
      (containsKey h k || (k' == k)) := by
  unfold objInsert
  by_cases hc : containsKey h k' = true
  · rw [if_pos hc, containsKey_mapReplace]
    by_cases hkk : (k' == k) = true
    · have hkeq : k' = k := by simpa using hkk
      simp [hkk, hkeq ▸ hc]
    · have hkb : (k' == k) = false := by simpa using hkk
      simp [hkb]
  · have hc' : containsKey h k' = false := by simpa using hc
    rw [if_neg (by simp [hc'])]
    simp [containsKey, List.any_append, List.any_cons]

theorem containsKey_objSpread (a b : Headers) (k : String) :
    containsKey (objSpread a b) k = (containsKey a k || containsKey b k) := by
  induction b generalizing a with
  | nil => simp [objSpread, containsKey]
  | cons p rest ih =>
    show containsKey (objSpread (objInsert a p) rest) k = _
    rw [ih, containsKey_objInsert]
    simp [containsKey, List.any_cons, Bool.or_assoc]

theorem lookupHeader_objSpread (a b : Headers) (k : String)
    (hb : (b.map Prod.fst).Nodup) :
    lookupHeader (objSpread a b) k =
      (match lookupHeader b k with
        | some v => some v
        | none => lookupHeader a k) := by
  induction b generalizing a with
  | nil => rfl
  | cons p rest ih =>
    obtain ⟨k', v⟩ := p
    simp only [List.map_cons, List.nodup_cons] at hb
    show lookupHeader (objSpread (objInsert a (k', v)) rest) k = _
    rw [ih _ hb.2]
    by_cases hk : (k == k') = true
    · have hkeq : k = k' := by simpa using hk
      have hrest : lookupHeader rest k = none :=
        lookupHeader_eq_none_of_not_mem rest k (hkeq ▸ hb.1)
      simp [lookupHeader, hk, hrest, lookupHeader_objInsert]
    · have hkb : (k == k') = false := by simpa using hk
      cases hl : lookupHeader rest k <;>
        simp [lookupHeader, hkb, hl, lookupHeader_objInsert]

/-! ## Claim theorems -/

/-- C1: `resolve()` selects exactly one of the three auth modes in
strict priority order on every call: host runtime present with
non-empty init data yields `host` mode carrying the init-data string
verbatim under the identity header, regardless of the dev-bypass
configuration; otherwise an enabled dev bypass with the host runtime
absent yields `devBypass` with the fixed bypass token under the
dev-auth header; otherwise `anonymous` with only the Content-Type
header. -/
theorem resolve_strict_priority (tg : Option WebAppObj) (cfg : AppCfg) :
    (∀ w, tg = some w → w.initData ≠ "" →
      resolve tg cfg =
        { mode := .host
          headers := [("Content-Type", "application/json"),
                      ("X-Telegram-Init-Data", w.initData)] }) ∧
    (tg = none → cfg.enableDevMode = true →
      resolve tg cfg =
        { mode := .devBypass
          headers := [("Content-Type", "application/json"),
                      ("X-Dev-Auth", cfg.devAuthHeader)] }) ∧
    (initDataAvailable tg = false → (tg = none → cfg.enableDevMode = false) →
      resolve tg cfg =
        { mode := .anonymous
          headers := [("Content-Type", "application/json")] }) := by
  refine ⟨?_, ?_, ?_⟩
  · rintro w rfl hne
    have hb : (w.initData == "") = false := by simpa using hne
    simp [resolve, hb]
  · rintro rfl hdev
    simp [resolve, hdev]
  · intro hav hnodev
    cases tg with
    | none => simp [resolve, hnodev rfl]
    | some w =>
      have hb : (w.initData == "") = true := by
        simpa [initDataAvailable] using hav
      simp [resolve, hb]

/-- C1 witness: concrete resolutions in each mode. -/
theorem resolve_strict_priority_witness :
    resolve (some demoWebApp) localDevCfg =
      { mode := .host
        headers := [("Content-Type", "application/json"),
                    ("X-Telegram-Init-Data", "query_id=abc")] } ∧
    resolve none localDevCfg =
      { mode := .devBypass
        headers := [("Content-Type", "application/json"),
                    ("X-Dev-Auth", "dev-user-bypass")] } ∧
    resolve none productionCfg =
      { mode := .anonymous
        headers := [("Content-Type", "application/json")] } :=
  ⟨(resolve_strict_priority (some demoWebApp) localDevCfg).1 demoWebApp rfl
      (by decide),
    (resolve_strict_priority none localDevCfg).2.1 rfl rfl,
    (resolve_strict_priority none productionCfg).2.2 rfl (fun _ => rfl)⟩

/-- C2 counterexample: with `main` registered and its markup fetch
failing, `navigateToPage("main")` does *not* leave the previously
displayed content in the main container — the `catch` block's
`showError` overwrites the `#app` innerHTML with the error panel. -/
theorem navigateToPage_markupFailure_replacesContainer :
    (navigateToPage demoFailIo "main" emptyApp).1.dom.appContent ≠
        emptyApp.dom.appContent ∧
      (navigateToPage demoFailIo "main" emptyApp).1.dom.appContent =
        errorContainerHtml "Failed to load page: main" := by
  constructor
  · decide
  · rfl

/-- C2 (amended): if the markup fetch fails, the navigation does not
commit — `currentPage` and the injected style/script elements are
unchanged and no page content is injected — but the main container is
overwritten with `showError`'s error panel rather than retaining the
previous content, and the failure surfaces as the markup-phase error. -/
theorem navigateToPage_markupFailure_aborts (io : NavIo)
    (pageName pageConfig : String) (st : AppState)
    (hreg : io.registry pageName = some pageConfig)
    (hfetch : io.fetchHtml (pageConfig ++ "index.html") = none) :
    (navigateToPage io pageName st).1.currentPage = st.currentPage ∧
    (navigateToPage io pageName st).1.dom.head = st.dom.head ∧
    (navigateToPage io pageName st).1.dom.appContent =
      errorContainerHtml ("Failed to load page: " ++ pageName) ∧
    (navigateToPage io pageName st).2 = .loadMarkupFailed := by
  unfold navigateToPage navResume
  simp [hreg, hfetch, showError]

/-- C2 witness: the amended theorem at the concrete failing fixture. -/
theorem navigateToPage_markupFailure_aborts_witness :
    (navigateToPage demoFailIo "main" emptyApp).1.currentPage =
        emptyApp.currentPage ∧
      (navigateToPage demoFailIo "main" emptyApp).1.dom.head =
        emptyApp.dom.head ∧
      (navigateToPage demoFailIo "main" emptyApp).1.dom.appContent =
        errorContainerHtml ("Failed to load page: " ++ "main") ∧
      (navigateToPage demoFailIo "main" emptyApp).2 = .loadMarkupFailed :=
  navigateToPage_markupFailure_aborts demoFailIo "main" "pages/main/"
    emptyApp (by decide) rfl

/-- C3 counterexample: construct the wrapper while the host offers
init data, then let the host environment lose it; the second
`getAuthHeaders()` call still carries the identity header, so its
result does not reflect the now-current availability. -/
theorem secondResolve_staleAvailability :
    ¬ ((lookupHeader (secondResolveHeaders (some demoWebApp) none)
          "X-Telegram-Init-Data").isSome
        = initDataAvailable none) := by decide

/-- C3 (amended): every `getAuthHeaders()` call rebuilds the headers
object, but from the init-data snapshot taken once by `init()` at
construction: the result is identical whatever the current environment
is, and carries the identity header exactly when init data was
available at construction time. -/
theorem secondResolve_reflects_constructionAvailability
    (construction current other : Option WebAppObj) :
    secondResolveHeaders construction current =
        secondResolveHeaders construction other ∧
      (lookupHeader (secondResolveHeaders construction current)
          "X-Telegram-Init-Data").isSome
        = initDataAvailable construction := by
  refine ⟨rfl, ?_⟩
  cases construction with
  | none => rfl
  | some w =>
    by_cases h : (w.initData == "") = true
    · simp [secondResolveHeaders, TelegramWebApp.init,
        TelegramWebApp.getAuthHeaders, lookupHeader, initDataAvailable, h]
    · have hb : (w.initData == "") = false := by simpa using h
      simp [secondResolveHeaders, TelegramWebApp.init,
        TelegramWebApp.getAuthHeaders, lookupHeader_cons, initDataAvailable, hb,
        show (("X-Telegram-Init-Data" : String) == "Content-Type") = false
          from by decide]

/-- C4: after any sequence of sequentially completed `navigateToPage`
calls from a document with at most one element per reserved id
(in particular the pristine document, and in particular navigating to
`main` twice), at most one style element and at most one script element
carrying `page-css`/`page-js` exist — each navigation removes the
previous one before appending the new one. -/
theorem navSeq_resourceInvariant (io : NavIo) (names : List String)
    (st : AppState)
    (hcss : countById "page-css" st.dom.head ≤ 1)
    (hjs : countById "page-js" st.dom.head ≤ 1) :
    countById "page-css" (navSeq io names st).dom.head ≤ 1 ∧
      countById "page-js" (navSeq io names st).dom.head ≤ 1 := by
  induction names generalizing st with
  | nil => exact ⟨hcss, hjs⟩
  | cons n rest ih =>
    have h := navigateToPage_preserves_resourceInvariant io n st hcss hjs
    exact ih _ h.1 h.2

/-- C4 witness: navigating to `main` twice from the pristine document
leaves the invariant intact (and in fact exactly one element of each). -/
theorem navSeq_resourceInvariant_witness :
    countById "page-css" (navSeq demoIo ["main", "main"] emptyApp).dom.head ≤ 1 ∧
      countById "page-js" (navSeq demoIo ["main", "main"] emptyApp).dom.head ≤ 1 :=
  navSeq_resourceInvariant demoIo ["main", "main"] emptyApp
    (by decide) (by decide)

/-- C5: for a name with no registered descriptor, `navigateToPage`
fails on the registry lookup: the outcome is the not-found error, no
`fetch` is issued, and neither the view state nor the injected
resources change. -/
theorem navigateToPage_unknown_view (io : NavIo) (pageName : String)
    (st : AppState) (hreg : io.registry pageName = none) :
    (navigateToPage io pageName st).2 = .pageNotFound ∧
    (navigateToPage io pageName st).1.fetchLog = st.fetchLog ∧
    (navigateToPage io pageName st).1.currentPage = st.currentPage ∧
    (navigateToPage io pageName st).1.dom.head = st.dom.head := by
  unfold navigateToPage
  simp [hreg, showError]

/-- C5 witness: `navigate("doesNotExist")` against the `main`-only
registry. -/
theorem navigateToPage_unknown_view_witness :
    (navigateToPage demoIo "doesNotExist" emptyApp).2 = .pageNotFound ∧
      (navigateToPage demoIo "doesNotExist" emptyApp).1.fetchLog =
        emptyApp.fetchLog ∧
      (navigateToPage demoIo "doesNotExist" emptyApp).1.currentPage =
        emptyApp.currentPage ∧
      (navigateToPage demoIo "doesNotExist" emptyApp).1.dom.head =
        emptyApp.dom.head :=
  navigateToPage_unknown_view demoIo "doesNotExist" emptyApp (by decide)

/-- C6: the header set `App.apiRequest` sends is the object-spread
merge of the resolver's headers with the caller's extras: every key of
either side is present, and on a key collision the caller's value wins
(keys of a JS object literal are unique, whence the no-duplicate
hypothesis on the extras). -/
theorem apiRequestHeaders_merge (dh eh : Headers) (k : String)
    (hnd : (eh.map Prod.fst).Nodup) :
    containsKey (apiRequestHeaders dh eh) k =
        (containsKey dh k || containsKey eh k) ∧
      lookupHeader (apiRequestHeaders dh eh) k =
        (match lookupHeader eh k with
          | some v => some v
          | none => lookupHeader dh k) :=
  ⟨containsKey_objSpread dh eh k, lookupHeader_objSpread dh eh k hnd⟩

/-- C6 witness: the spec's disjoint example (anonymous-mode resolver
headers plus `X-Custom`), looked up at the caller's key. -/
theorem apiRequestHeaders_merge_witness :
    containsKey
        (apiRequestHeaders [("Content-Type", "application/json")]
          [("X-Custom", "1")]) "X-Custom" =
      (containsKey [("Content-Type", "application/json")] "X-Custom" ||
        containsKey [("X-Custom", "1")] "X-Custom") ∧
    lookupHeader
        (apiRequestHeaders [("Content-Type", "application/json")]
          [("X-Custom", "1")]) "X-Custom" =
      (match lookupHeader [("X-Custom", "1")] "X-Custom" with
        | some v => some v
        | none => lookupHeader [("Content-Type", "application/json")] "X-Custom") :=
  apiRequestHeaders_merge [("Content-Type", "application/json")]
    [("X-Custom", "1")] "X-Custom" (by simp)

/-- C7: a data call through `App.apiRequest` fails with the HTTP error
iff the status lies outside 200-299 (in particular 201 is success, the
code's explicit policy), the error carrying the response's status and
statusText verbatim; on an in-range status the body is parsed as JSON,
an unparsable body surfacing as the parse error. -/
theorem apiRequestHandle_statusPolicy {α : Type}
    (parse : String → Option α) (r : HttpResponse) :
    (¬ (200 ≤ r.status ∧ r.status ≤ 299) →
      apiRequestHandle parse r =
        .error (.requestFailed r.status r.statusText)) ∧
    (200 ≤ r.status → r.status ≤ 299 →
      apiRequestHandle parse r =
        (match parse r.body with
          | some j => Except.ok j
          | none => Except.error ApiError.parseFailed)) ∧
    (r.status = 201 →
      apiRequestHandle parse r =
        (match parse r.body with
          | some j => Except.ok j
          | none => Except.error ApiError.parseFailed)) ∧
    (∀ s t, apiRequestHandle parse r = .error (.requestFailed s t) →
      ¬ (200 ≤ r.status ∧ r.status ≤ 299)) := by
  have hrange : ∀ (h1 : 200 ≤ r.status) (h2 : r.status ≤ 299),
      apiRequestHandle parse r =
        (match parse r.body with
          | some j => Except.ok j
          | none => Except.error ApiError.parseFailed) := by
    intro h1 h2
    have hok : responseOk r.status = true := by
      simp only [responseOk, Bool.and_eq_true, decide_eq_true_eq]
      exact ⟨h1, h2⟩
    simp [apiRequestHandle, hok]
  refine ⟨?_, hrange, fun h201 => hrange (by omega) (by omega), ?_⟩
  · intro h
    have hok : responseOk r.status = false := by
      simp only [responseOk, Bool.and_eq_false_iff, decide_eq_false_iff_not]
      omega
    have h201 : (r.status != 201) = true := by
      simp only [bne_iff_ne, ne_eq]
      omega
    simp [apiRequestHandle, hok, h201]
  · intro s t heq hin
    rw [hrange hin.1 hin.2] at heq
    cases hp : parse r.body <;> rw [hp] at heq <;> simp at heq

/-- C7 witness: a 404 fails with status and statusText; a 201 with a
parsable body succeeds; a 200 with an unparsable body is a parse
error. -/
theorem apiRequestHandle_statusPolicy_witness :
    apiRequestHandle natParse
        { status := 404, statusText := "Not Found", body := "x" } =
      .error (.requestFailed 404 "Not Found") ∧
    apiRequestHandle natParse
        { status := 201, statusText := "Created", body := "7" } = .ok 7 ∧
    apiRequestHandle natParse
        { status := 200, statusText := "OK", body := "nope" } =
      .error .parseFailed := by
  refine ⟨?_, ?_, ?_⟩
  · exact (apiRequestHandle_statusPolicy natParse
      { status := 404, statusText := "Not Found", body := "x" }).1 (by decide)
  · rw [(apiRequestHandle_statusPolicy natParse
      { status := 201, statusText := "Created", body := "7" }).2.2.1 rfl]
    rfl
  · rw [(apiRequestHandle_statusPolicy natParse
      { status := 200, statusText := "OK", body := "nope" }).2.1
      (by decide) (by decide)]
    rfl

/-- C8: two overlapping navigations, `a` issued before `b`, with `b`'s
markup fetch settling first and `a`'s settling second: after both
resumptions the displayed content is `a`'s and `currentPage = "a"` —
the navigation that settles last wins, not the one issued last. -/
theorem navigate_race_lastSettledWins (io : NavIo) (st : AppState)
    (pa pb htmlA htmlB : String)
    (_hra : io.registry "a" = some pa)
    (_hrb : io.registry "b" = some pb) :
    (navResume io "a" pa (some htmlA)
        (navResume io "b" pb (some htmlB)
          { st with fetchLog :=
              st.fetchLog ++ [pa ++ "index.html", pb ++ "index.html"] }).1).1.dom.appContent
        = io.extractBody htmlA ∧
      (navResume io "a" pa (some htmlA)
          (navResume io "b" pb (some htmlB)
            { st with fetchLog :=
                st.fetchLog ++ [pa ++ "index.html", pb ++ "index.html"] }).1).1.currentPage
        = some "a" := by
  simp [navResume]

/-- C8 witness: the race at a concrete two-page registry. -/
theorem navigate_race_lastSettledWins_witness :
    (navResume raceIo "a" "pages/a/" (some "<p>A</p>")
        (navResume raceIo "b" "pages/b/" (some "<p>B</p>")
          { emptyApp with fetchLog :=
              emptyApp.fetchLog ++
                ["pages/a/" ++ "index.html", "pages/b/" ++ "index.html"] }).1).1.dom.appContent
        = raceIo.extractBody "<p>A</p>" ∧
      (navResume raceIo "a" "pages/a/" (some "<p>A</p>")
          (navResume raceIo "b" "pages/b/" (some "<p>B</p>")
            { emptyApp with fetchLog :=
                emptyApp.fetchLog ++
                  ["pages/a/" ++ "index.html", "pages/b/" ++ "index.html"] }).1).1.currentPage
        = some "a" :=
  navigate_race_lastSettledWins raceIo emptyApp "pages/a/" "pages/b/"
    "<p>A</p>" "<p>B</p>" (by decide) (by decide)

/-- C9: with the host runtime absent (the wrapper constructed without
`window.Telegram.WebApp`, so `isInitialized` is false), every public
wrapper method is total and returns its browser fallback: `getVersion`
null, `getPlatform` "unknown", `getColorScheme` "light", the viewport
getters `window.innerHeight`, `isExpanded` false, the popup methods
browser dialogs, and the remaining operations no-ops. -/
theorem browserMode_total_fallbacks :
    (TelegramWebApp.isInitialized (TelegramWebApp.init none) = false) ∧
    (TelegramWebApp.getVersion (TelegramWebApp.init none) = none) ∧
    (TelegramWebApp.getPlatform (TelegramWebApp.init none) = "unknown") ∧
    (TelegramWebApp.getColorScheme (TelegramWebApp.init none) = "light") ∧
    (∀ innerHeight : Nat,
      TelegramWebApp.getViewportHeight (TelegramWebApp.init none) innerHeight =
        innerHeight) ∧
    (∀ innerHeight : Nat,
      TelegramWebApp.getViewportStableHeight (TelegramWebApp.init none)
        innerHeight = innerHeight) ∧
    (TelegramWebApp.isExpanded (TelegramWebApp.init none) = false) ∧
    (∀ m, TelegramWebApp.showAlert (TelegramWebApp.init none) m =
      .browserAlert m) ∧
    (∀ m, TelegramWebApp.showConfirm (TelegramWebApp.init none) m =
      .browserConfirm m) ∧
    (∀ p, TelegramWebApp.showPopup (TelegramWebApp.init none) p =
      .browserAlert
        (match p with
          | some m => if m == "" then "Popup not supported in browser mode" else m
          | none => "Popup not supported in browser mode")) ∧
    (TelegramWebApp.close (TelegramWebApp.init none) = []) ∧
    (TelegramWebApp.expand (TelegramWebApp.init none) = []) ∧
    (∀ t, TelegramWebApp.showMainButton (TelegramWebApp.init none) t = []) ∧
    (TelegramWebApp.hideMainButton (TelegramWebApp.init none) = []) ∧
    (TelegramWebApp.showBackButton (TelegramWebApp.init none) = []) ∧
    (TelegramWebApp.hideBackButton (TelegramWebApp.init none) = []) ∧
    (∀ cfgEnabled kind,
      TelegramWebApp.hapticFeedback (TelegramWebApp.init none) cfgEnabled kind =
        []) ∧
    (∀ cfgEnabled,
      TelegramWebApp.setupTheme (TelegramWebApp.init none) cfgEnabled = []) ∧
    (TelegramWebApp.getInitData (TelegramWebApp.init none) = none) ∧
    (TelegramWebApp.isReady (TelegramWebApp.init none) = false) :=
  ⟨rfl, rfl, rfl, rfl, fun _ => rfl, fun _ => rfl, rfl, fun _ => rfl,
    fun _ => rfl, fun _ => rfl, rfl, rfl, fun _ => rfl, rfl, rfl, rfl,
    fun _ _ => rfl, fun _ => rfl, rfl, rfl⟩

/-- C10: with the debug flag disabled, `debugLog` is a no-op for every
input — both the `App` variant (gated by `debugConsole`) and the
`ArenaApp` variant (gated by `ENABLE_DEBUG`): the log list is returned
unchanged, nothing is written to the console, and the debug display is
not refreshed. -/
theorem debugLog_disabled_noop :
    (∀ time message data logs,
      App.debugLog false time message data logs =
        { debugLogs := logs, consoleLines := [], displayUpdated := false }) ∧
    (∀ timestamp message logs,
      ArenaApp.debugLog false timestamp message logs = (logs, [], false)) :=
  ⟨fun _ _ _ _ => rfl, fun _ _ _ => rfl⟩

end TgApp
